import Mathlib

/-!
Verification development for the CheckPointX event check-in backend.

The definitions below are a shallow embedding of the Python source under
src/: the data model of app/models.py, the crypto and notification
services of app/services.py, and the cipher initialization of
app/config.py.  The offline sync endpoint itself lives in a routes module
that is not part of the sources at hand; its reconciliation contract is
modelled from the specification and marked as such in the doc comments.
Python None is rendered as Option.none, a raised exception as the error
branch of Except, and log output as an explicit list of emitted lines.
-/

namespace CheckPointX

/-- Model of the external Fernet cipher (package cryptography.fernet).
enc is token encryption and dec token decryption, dec returning none for
the InvalidToken exception.  The two laws are the documented contract of
the library: decrypting a token returns the original plaintext, and a
token is strictly longer than its plaintext (a token always carries a
version byte, a timestamp, an IV and an HMAC on top of the padded
payload). -/
structure Fernet where
  enc : String → String
  dec : String → Option String
  dec_enc : ∀ s : String, dec (enc s) = some s
  enc_longer : ∀ s : String, s.length < (enc s).length

/-- A concrete cipher instantiating the model on examples: it prepends a
marker character, which satisfies both laws of Fernet. -/
def demoFernet : Fernet where
  enc s := String.mk ('g' :: s.data)
  dec t :=
    match t.data with
    | 'g' :: rest => some (String.mk rest)
    | _ => none
  dec_enc := by intro s; cases s; rfl
  enc_longer := by
    intro s
    exact Nat.lt_succ_self s.data.length

/-- The process environment seen by the models layer: the value of the
ENCRYPTION_KEY environment variable and the module-level cipher that
app/config.py built from it. -/
structure CryptoEnv where
  encryption_key : Option String
  cipher : Option Fernet

/-- From app/config.py: the module-level Fernet cipher is initialized from
ENCRYPTION_KEY when the variable is set and the key parses as a Fernet
key (parse models the Fernet constructor, none standing for its exception
branch); with no key, no cipher is initialized. -/
def initFernetCipher (key : Option String) (parse : String → Option Fernet) : Option Fernet :=
  match key with
  | none => none
  | some k => parse k

/-- Outcome of an assignment to a fingerprint-template property of User:
the value left in the underlying column and whether the plaintext-storage
warning was logged. -/
structure TemplateSetResult where
  stored : Option String
  warned : Bool

/-- From app/models.py, the setter of User.fingerprint_template_1: with a
cipher and a truthy plaintext the encrypted token is stored; with a truthy
plaintext but no cipher the plaintext itself is stored, and the warning is
logged only under the guard that ENCRYPTION_KEY is set; otherwise the
column is cleared.  A Python string is truthy when non-empty; none models
Python None.  Encrypting encoded text with a valid Fernet cipher does not
raise, so the except branch of the source is unreachable in the model. -/
def fingerprint_template_1_set (env : CryptoEnv) (plain_text_template : Option String) :
    TemplateSetResult :=
  match env.cipher, plain_text_template with
  | some cipher, some p =>
      if p = "" then ⟨none, false⟩ else ⟨some (cipher.enc p), false⟩
  | some _, none => ⟨none, false⟩
  | none, some p =>
      if p = "" then ⟨none, false⟩ else ⟨some p, env.encryption_key.isSome⟩
  | none, none => ⟨none, false⟩

/-- From app/models.py, the setter of User.fingerprint_template_2: same
logic as the first template field. -/
def fingerprint_template_2_set (env : CryptoEnv) (plain_text_template : Option String) :
    TemplateSetResult :=
  match env.cipher, plain_text_template with
  | some cipher, some p =>
      if p = "" then ⟨none, false⟩ else ⟨some (cipher.enc p), false⟩
  | some _, none => ⟨none, false⟩
  | none, some p =>
      if p = "" then ⟨none, false⟩ else ⟨some p, env.encryption_key.isSome⟩
  | none, none => ⟨none, false⟩

/-- From app/models.py, the getter of User.fingerprint_template_1: with a
cipher and a truthy stored value the stored token is decrypted, a
decryption failure yielding None; in every other case the stored value is
returned as is. -/
def fingerprint_template_1_get (env : CryptoEnv) (stored : Option String) : Option String :=
  match env.cipher, stored with
  | some cipher, some t => if t = "" then some t else cipher.dec t
  | _, st => st

/-- From app/models.py, the getter of User.fingerprint_template_2: same
logic as the first template field. -/
def fingerprint_template_2_get (env : CryptoEnv) (stored : Option String) : Option String :=
  match env.cipher, stored with
  | some cipher, some t => if t = "" then some t else cipher.dec t
  | _, st => st

/-- A Python exception value, as raised by the services layer. -/
inductive PyError where
  | notImplementedError (msg : String)
  | runtimeError (msg : String)
deriving DecidableEq

/-- From app/services.py: the FingerprintService holds the cipher its
constructor initialized from ENCRYPTION_KEY (none when the key is missing
or invalid). -/
structure FingerprintService where
  cipher : Option Fernet

/-- From app/services.py, FingerprintService.encrypt_template: with no
cipher the call logs a warning and returns None; otherwise it returns the
Fernet token of the input.  The input is a string already, so the
non-string conversion branch is not taken, and encryption by a valid
cipher does not raise, so the except branch is unreachable. -/
def FingerprintService.encrypt_template (fs : FingerprintService)
    (template_data : String) : Option String :=
  match fs.cipher with
  | none => none
  | some cipher => some (cipher.enc template_data)

/-- From app/services.py, FingerprintService.decrypt_template: with no
cipher the call returns None; a falsy input (None, or the empty string)
returns None; otherwise the token is decrypted, a failure (InvalidToken)
being caught and returning None.  The argument is an Option so the result
of encrypt_template can be piped in directly. -/
def FingerprintService.decrypt_template (fs : FingerprintService)
    (encrypted_template_str : Option String) : Option String :=
  match fs.cipher with
  | none => none
  | some cipher =>
      match encrypted_template_str with
      | none => none
      | some t => if t = "" then none else cipher.dec t

/-- From app/services.py, FingerprintService.match_templates: the body is
a single raise of NotImplementedError. -/
def FingerprintService.match_templates (_fs : FingerprintService)
    (_template1 _template2 : String) (_threshold : Nat) : Except PyError Nat :=
  .error (.notImplementedError "Fingerprint matching must be implemented with a specific SDK.")

/-- A row of the users table of app/models.py.  Timestamps and columns not
touched by any operation modelled here are omitted.  fallback_id has type
String rather than Option String because the column is declared
nullable=False: the attribute is always present. -/
structure UserRow where
  id : Nat
  firebase_uid : Option String := none
  name : String
  phone : Option String := none
  email : Option String := none
  fallback_id : String
deriving DecidableEq

/-- A row of the events table of app/models.py. -/
structure EventRow where
  id : Nat
  name : String
deriving DecidableEq

/-- A row of the sessions table of app/models.py. -/
structure SessionRow where
  id : Nat
  event_id : Nat
  name : String
deriving DecidableEq

/-- A row of the registrations table of app/models.py. -/
structure RegistrationRow where
  id : Nat
  user_id : Nat
  event_id : Nat
deriving DecidableEq

/-- A row of the check_ins table of app/models.py.  Timestamps are modelled
as naturals. -/
structure CheckInRow where
  id : Nat
  user_id : Nat
  session_id : Nat
  event_id : Nat
  check_in_time : Nat
  device_id : Option String := none
  is_synced : Bool
  created_at_local : Option Nat := none
  method : Option String := none
deriving DecidableEq

/-- A row of the offline_devices table of app/models.py. -/
structure OfflineDeviceRow where
  id : Nat
  device_uuid : String
  name : Option String := none
  last_sync_time : Option Nat := none
deriving DecidableEq

/-- The relational store of the six entities, with the id counters of the
autoincrement primary keys and the position of the uuid4 supply used for
fresh fallback ids. -/
structure DB where
  users : List UserRow := []
  events : List EventRow := []
  sessions : List SessionRow := []
  registrations : List RegistrationRow := []
  check_ins : List CheckInRow := []
  devices : List OfflineDeviceRow := []
  next_user_id : Nat := 1
  next_registration_id : Nat := 1
  next_check_in_id : Nat := 1
  next_device_id : Nat := 1
  uuid_counter : Nat := 0
deriving DecidableEq

/-- The unique constraints declared by the schema of app/models.py: the
unique=True column markers on User.firebase_uid, User.email and
User.fallback_id, the uq_user_phone table constraint, the unique=True
marker on OfflineDevice.device_uuid, and the uq_user_event_registration
table constraint on Registration.  The uq_user_session_checkin constraint
on CheckIn is commented out in the source and therefore absent. -/
inductive UniqueKey where
  | user_firebase_uid
  | user_phone
  | user_email
  | user_fallback_id
  | device_uuid
  | registration_user_event
deriving DecidableEq

/-- The set of unique keys the schema of app/models.py declares,
transcribed column by column. -/
def schemaUniqueKeys : List UniqueKey :=
  [.user_firebase_uid, .user_email, .user_fallback_id, .user_phone,
   .device_uuid, .registration_user_event]

/-- The set of unique keys named by the specification (its Database
collaborator interface): phone, email, fallback_id, device_uuid and the
(user_id, event_id) pair.  This definition follows the words of the spec,
for comparison with schemaUniqueKeys. -/
def claimedUniqueKeys : List UniqueKey :=
  [.user_phone, .user_email, .user_fallback_id, .device_uuid,
   .registration_user_event]

/-- The row-level meaning of each unique key: no two rows of the table
share the same non-null value of the key. -/
def keyHolds (db : DB) : UniqueKey → Prop
  | .user_firebase_uid =>
      db.users.Pairwise (fun u v => u.firebase_uid = none ∨ u.firebase_uid ≠ v.firebase_uid)
  | .user_phone =>
      db.users.Pairwise (fun u v => u.phone = none ∨ u.phone ≠ v.phone)
  | .user_email =>
      db.users.Pairwise (fun u v => u.email = none ∨ u.email ≠ v.email)
  | .user_fallback_id =>
      db.users.Pairwise (fun u v => u.fallback_id ≠ v.fallback_id)
  | .device_uuid =>
      db.devices.Pairwise (fun a b => a.device_uuid ≠ b.device_uuid)
  | .registration_user_event =>
      db.registrations.Pairwise (fun a b => a.user_id ≠ b.user_id ∨ a.event_id ≠ b.event_id)

/-- All declared unique constraints hold of the store. -/
def SchemaOK (db : DB) : Prop := ∀ k ∈ schemaUniqueKeys, keyHolds db k

/-- The uuid4 supply never collides: distinct positions yield distinct
ids.  This is the collision-freedom idealization of uuid4. -/
def GenInj (gen : Nat → String) : Prop := ∀ i j : Nat, gen i = gen j → i = j

/-- No stored fallback id equals an id the supply has yet to produce:
positions at or past the current counter are fresh. -/
def UsersFresh (gen : Nat → String) (db : DB) : Prop :=
  ∀ u ∈ db.users, ∀ k, db.uuid_counter ≤ k → u.fallback_id ≠ gen k

/-- Modelled from the spec: a NewRegistration record of a sync batch.  The
original resolution code lives in the routes module, which is not among
the sources at hand; the shape follows the contract section of the
specification.  The spec record shape does not name the event being
registered for, although the resolution text creates the corresponding
Event Registration, so the event reference is carried as an optional
field; the optional fingerprint-template payload is orthogonal to the
reconciliation claims and omitted. -/
structure NewRegistration where
  local_id : String
  name : String
  phone : Option String := none
  email : Option String := none
  fallback_id : Option String := none
  event_id : Option Nat := none
deriving DecidableEq

/-- Modelled from the spec: the user reference carried by a CheckInRecord,
either a server user id, a fallback id, or a local id of a NewRegistration
of the same batch. -/
inductive UserRef where
  | serverRef (id : Nat)
  | fallbackRef (fid : String)
  | localRef (lid : String)
deriving DecidableEq

/-- Modelled from the spec: a CheckInRecord of a sync batch. -/
structure CheckInRecord where
  local_id : String
  user_ref : UserRef
  session_id : Nat
  event_id : Nat
  client_timestamp : Nat
  method : Option String := none
deriving DecidableEq

/-- Modelled from the spec: the sync request shape, a JSON object with
device_id, new_registrations and check_ins.  device_id is optional at the
wire level, missing device_id being the malformed-input case. -/
structure SyncPayload where
  device_id : Option String := none
  new_registrations : List NewRegistration := []
  check_ins : List CheckInRecord := []

/-- Modelled from the spec: the per-record resolution status of the
SyncResult.  For a registration the ids are the server user id and its
fallback id; for a check-in the server check-in id. -/
inductive RecordStatus where
  | created (server_id : Nat) (fallback_id : Option String)
  | already_existed (server_id : Nat) (fallback_id : Option String)
  | rejected (reason : String)
deriving DecidableEq

/-- Modelled from the spec: the SyncResult, mapping every submitted
local id to its resolution status, with the updated device sync time. -/
structure SyncResult where
  registration_results : List (String × RecordStatus)
  check_in_results : List (String × RecordStatus)
  last_sync_time : Nat
deriving DecidableEq

/-- Modelled from the spec: the top-level failure of a sync call, raised
only for malformed top-level input. -/
inductive SyncError where
  | validationError (msg : String)
deriving DecidableEq

/-- Modelled from the spec: per-registration user lookup — by phone if the
record carries one, else by email if it carries one, else by fallback id
if the client already has one. -/
def findUserForRegistration (db : DB) (r : NewRegistration) : Option UserRow :=
  match r.phone with
  | some p => db.users.find? (fun u => decide (u.phone = some p))
  | none =>
      match r.email with
      | some e => db.users.find? (fun u => decide (u.email = some e))
      | none =>
          match r.fallback_id with
          | some f => db.users.find? (fun u => decide (u.fallback_id = f))
          | none => none

/-- Modelled from the spec: a user row whose insert-time unique keys clash
with the incoming record.  The spec resolves a unique-constraint violation
on insert by catching it and re-resolving the record as already existing;
this lookup names the row the constraint check would collide with. -/
def conflictingUser (db : DB) (r : NewRegistration) : Option UserRow :=
  db.users.find? (fun u =>
    decide ((r.phone.isSome ∧ u.phone = r.phone) ∨
            (r.email.isSome ∧ u.email = r.email) ∨
            (r.fallback_id.isSome ∧ some u.fallback_id = r.fallback_id)))

/-- Modelled from the spec: resolve one NewRegistration against the store.
gen is the uuid4 supply for fresh fallback ids; the mapping accumulates
local id to (server user id, fallback id) pairs for the batch.  A found
user is an idempotent re-submission and nothing is written; a
unique-constraint collision is re-resolved as already existing; otherwise
a new User is created with a fresh fallback id, together with the
corresponding Event Registration when one is not already present for that
(user, event) pair. -/
def processRegistration (gen : Nat → String) (db : DB)
    (mapping : List (String × Nat × String)) (r : NewRegistration) :
    DB × List (String × Nat × String) × RecordStatus :=
  match findUserForRegistration db r with
  | some u =>
      (db, (r.local_id, u.id, u.fallback_id) :: mapping,
       .already_existed u.id (some u.fallback_id))
  | none =>
      match conflictingUser db r with
      | some u =>
          (db, (r.local_id, u.id, u.fallback_id) :: mapping,
           .already_existed u.id (some u.fallback_id))
      | none =>
          let u : UserRow :=
            { id := db.next_user_id, firebase_uid := none, name := r.name,
              phone := r.phone, email := r.email,
              fallback_id := gen db.uuid_counter }
          let db1 : DB :=
            { db with users := db.users ++ [u],
                      next_user_id := db.next_user_id + 1,
                      uuid_counter := db.uuid_counter + 1 }
          let db2 : DB :=
            match r.event_id with
            | some ev =>
                if db1.registrations.any
                    (fun g => decide (g.user_id = u.id ∧ g.event_id = ev)) then db1
                else
                  { db1 with
                      registrations := db1.registrations ++
                        [{ id := db1.next_registration_id, user_id := u.id,
                           event_id := ev }],
                      next_registration_id := db1.next_registration_id + 1 }
            | none => db1
          (db2, (r.local_id, u.id, u.fallback_id) :: mapping,
           .created u.id (some u.fallback_id))

/-- Modelled from the spec: resolve the NewRegistration records of a batch
in order, threading the store and the local-id mapping and producing one
status per record. -/
def processRegistrations (gen : Nat → String) (db : DB)
    (mapping : List (String × Nat × String)) :
    List NewRegistration → DB × List (String × Nat × String) × List (String × RecordStatus)
  | [] => (db, mapping, [])
  | r :: rest =>
      let (db1, m1, st) := processRegistration gen db mapping r
      let (db2, m2, sts) := processRegistrations gen db1 m1 rest
      (db2, m2, (r.local_id, st) :: sts)

/-- Modelled from the spec: dereference the user reference of a
CheckInRecord — a server id directly, a fallback id by lookup, a local id
through the mapping built from this same batch. -/
def resolveUserRef (db : DB) (mapping : List (String × Nat × String)) :
    UserRef → Option UserRow
  | .serverRef i => db.users.find? (fun u => decide (u.id = i))
  | .fallbackRef f => db.users.find? (fun u => decide (u.fallback_id = f))
  | .localRef lid =>
      match mapping.find? (fun e => decide (e.1 = lid)) with
      | some e => db.users.find? (fun u => decide (u.id = e.2.1))
      | none => none

/-- Modelled from the spec: resolve one CheckInRecord.  The user must
resolve and the referenced Session and Event must exist, else the record
is rejected with a reason; a pre-existing CheckIn with the same dedupe key
suppresses the insert (the CheckIn table tracks no device-local id, so the
key is user, session and client timestamp); otherwise exactly one new
CheckIn row is inserted, synced, stamped with the device id and the client
timestamp. -/
def processCheckIn (now : Nat) (device_id : String) (db : DB)
    (mapping : List (String × Nat × String)) (c : CheckInRecord) :
    DB × RecordStatus :=
  match resolveUserRef db mapping c.user_ref with
  | none => (db, .rejected "referenced user not found")
  | some u =>
      match db.sessions.find? (fun s => decide (s.id = c.session_id)) with
      | none => (db, .rejected "referenced session not found")
      | some _ =>
          match db.events.find? (fun e => decide (e.id = c.event_id)) with
          | none => (db, .rejected "referenced event not found")
          | some _ =>
              match db.check_ins.find? (fun k =>
                  decide (k.user_id = u.id ∧ k.session_id = c.session_id ∧
                          k.created_at_local = some c.client_timestamp)) with
              | some k => (db, .already_existed k.id none)
              | none =>
                  let k : CheckInRow :=
                    { id := db.next_check_in_id, user_id := u.id,
                      session_id := c.session_id, event_id := c.event_id,
                      check_in_time := now, device_id := some device_id,
                      is_synced := true,
                      created_at_local := some c.client_timestamp,
                      method := c.method }
                  ({ db with check_ins := db.check_ins ++ [k],
                             next_check_in_id := db.next_check_in_id + 1 },
                   .created k.id none)

/-- Modelled from the spec: resolve the CheckInRecord records of a batch
in order, producing one status per record. -/
def processCheckIns (now : Nat) (device_id : String) (db : DB)
    (mapping : List (String × Nat × String)) :
    List CheckInRecord → DB × List (String × RecordStatus)
  | [] => (db, [])
  | c :: rest =>
      let (db1, st) := processCheckIn now device_id db mapping c
      let (db2, sts) := processCheckIns now device_id db1 mapping rest
      (db2, (c.local_id, st) :: sts)

/-- Modelled from the spec: the device id must resolve to a known or
newly-registered OfflineDevice; in both cases its last_sync_time is
brought to the present call. -/
def ensureDevice (now : Nat) (db : DB) (uuid : String) : DB :=
  if db.devices.any (fun d => decide (d.device_uuid = uuid)) then
    { db with devices := db.devices.map (fun d =>
        if d.device_uuid = uuid then { d with last_sync_time := some now } else d) }
  else
    { db with
        devices := db.devices ++
          [{ id := db.next_device_id, device_uuid := uuid, name := none,
             last_sync_time := some now }],
        next_device_id := db.next_device_id + 1 }

/-- Modelled from the spec: the reconcile contract of the Offline Sync
Reconciler.  Missing device_id fails the whole call; otherwise the device
is resolved, all NewRegistration records are processed first in batch
order building the local-id mapping, then all CheckInRecord records, and
a full per-record result set is returned.  The fire-and-forget
notification side effect writes nothing to the store and is modelled
separately on the NotificationService. -/
def reconcile (gen : Nat → String) (now : Nat) (payload : SyncPayload)
    (db : DB) : Except SyncError (SyncResult × DB) :=
  match payload.device_id with
  | none => .error (.validationError "device_id is required")
  | some device_id =>
      let db0 := ensureDevice now db device_id
      let (db1, mapping, regResults) :=
        processRegistrations gen db0 [] payload.new_registrations
      let (db2, checkResults) :=
        processCheckIns now device_id db1 mapping payload.check_ins
      .ok ({ registration_results := regResults,
             check_in_results := checkResults,
             last_sync_time := now }, db2)

/-- Render a Python exception to the text its print statement displays. -/
def PyError.message : PyError → String
  | .notImplementedError m => m
  | .runtimeError m => m

/-- From app/services.py, NotificationService.__init__: the credentials
read from the environment, whether the SMS backend initialized, and the
two external send operations (Africa-s Talking SMS and Resend email), each
able to raise. -/
structure NotificationWorld where
  sms_available : Bool
  resend_api_key : Option String
  admin_email : Option String
  from_email : String
  smsSend : String → String → Except PyError String
  emailSend : String → List String → String → String → Except PyError String

/-- From app/services.py: the event name displayed in notifications, via
the session-to-event relationship, with a fallback text when the event is
absent. -/
def sessionEventName (db : DB) (s : SessionRow) : String :=
  match db.events.find? (fun e => decide (e.id = s.event_id)) with
  | some e => e.name
  | none => "the event"

/-- From app/services.py, send_checkin_email: the most recent check-in
time of the user in the session, for display. -/
def latestCheckInTime (db : DB) (uid sid : Nat) : Option Nat :=
  (db.check_ins.filter (fun k => decide (k.user_id = uid ∧ k.session_id = sid))).foldl
    (fun acc k =>
      match acc with
      | none => some k.check_in_time
      | some t => some (max t k.check_in_time)) none

/-- The display text for the latest check-in time, the source falling back
to the word recently when no record is found. -/
def checkinTimeDisplay (db : DB) (uid sid : Nat) : String :=
  match latestCheckInTime db uid sid with
  | some t => toString t
  | none => "recently"

/-- The SMS text composed by send_checkin_sms. -/
def checkinSmsMessage (db : DB) (user : UserRow) (session_obj : SessionRow) : String :=
  "Hello " ++ user.name ++ ", your check-in for " ++ sessionEventName db session_obj ++
    " - " ++ session_obj.name ++ " is confirmed. Thank you!"

/-- The email body composed by send_checkin_email. -/
def checkinEmailHtml (db : DB) (user : UserRow) (session_obj : SessionRow) : String :=
  "Check-in Confirmed! Hello " ++ user.name ++ ", your check-in to " ++
    sessionEventName db session_obj ++ " (Session: " ++ session_obj.name ++ ") at " ++
    checkinTimeDisplay db user.id session_obj.id ++ " has been confirmed."

/-- From app/services.py, NotificationService.send_checkin_sms: skip when
the SMS backend is unavailable or the user has no phone; otherwise send,
any exception of the send being caught, logged and turned into None.  The
first component is the outcome under exception-propagation semantics, the
second the emitted log lines. -/
def send_checkin_sms (w : NotificationWorld) (db : DB) (user : UserRow)
    (session_obj : SessionRow) : Except PyError (Option String) × List String :=
  if !w.sms_available then
    (.ok none, ["DEBUG: SMS service not available. Skipping SMS."])
  else if user.phone.getD "" = "" then
    (.ok none, ["DEBUG: No phone number. Skipping SMS."])
  else
    match w.smsSend (checkinSmsMessage db user session_obj) (user.phone.getD "") with
    | .ok r => (.ok (some r), ["INFO: SMS sent."])
    | .error e => (.ok none, ["ERROR: SMS sending failed: " ++ e.message])

/-- From app/services.py, NotificationService.send_checkin_email: skip
when the Resend key is unset or the user has no email; otherwise compose
and send, any exception of the body being caught, logged and turned into
None. -/
def send_checkin_email (w : NotificationWorld) (db : DB) (user : UserRow)
    (session_obj : SessionRow) : Except PyError (Option String) × List String :=
  if w.resend_api_key.isNone then
    (.ok none, ["DEBUG: Resend API key not set. Skipping email."])
  else if user.email.getD "" = "" then
    (.ok none, ["DEBUG: No email address. Skipping email."])
  else
    match w.emailSend w.from_email [user.email.getD ""]
        ("Your Check-in Confirmation for " ++ sessionEventName db session_obj)
        (checkinEmailHtml db user session_obj) with
    | .ok r => (.ok (some r), ["INFO: Email sent."])
    | .error e => (.ok none, ["ERROR: Email sending failed: " ++ e.message])

/-- From app/services.py, NotificationService.send_vip_alerts: skip when
the Resend key or the admin address is unset; otherwise send the alert to
the admin address, any exception being caught, logged and turned into
None. -/
def send_vip_alerts (w : NotificationWorld) (db : DB) (user : UserRow)
    (session_obj : SessionRow) : Except PyError (Option String) × List String :=
  if w.resend_api_key.isNone then
    (.ok none, ["DEBUG: Resend API key not set for VIP alert. Skipping."])
  else if w.admin_email.isNone then
    (.ok none, ["DEBUG: ADMIN_EMAIL not set for VIP alert. Skipping."])
  else
    match w.emailSend w.from_email [w.admin_email.getD ""]
        ("VIP Check-in Alert: " ++ user.name ++ " for " ++ sessionEventName db session_obj)
        (checkinEmailHtml db user session_obj) with
    | .ok r => (.ok (some r), ["INFO: VIP alert sent."])
    | .error e => (.ok none, ["ERROR: VIP alert email failed: " ++ e.message])

/-- From app/services.py, NotificationService.send_checkin_notifications:
SMS then email, under exception-propagation semantics (the source wraps
no try around these calls, so an exception either would propagate).  The
VIP branch is guarded by a getattr on an is_vip attribute the User model
does not declare, whose Python default is False, so send_vip_alerts is
never invoked from here. -/
def send_checkin_notifications (w : NotificationWorld) (db : DB)
    (user : UserRow) (session_obj : SessionRow) : Except PyError Unit × List String :=
  let (r1, l1) := send_checkin_sms w db user session_obj
  match r1 with
  | .error e => (.error e, l1)
  | .ok _ =>
      let (r2, l2) := send_checkin_email w db user session_obj
      match r2 with
      | .error e => (.error e, l1 ++ l2)
      | .ok _ => (.ok (), l1 ++ l2)

/-- A concrete uuid4 supply for examples: position n yields a string of
n plus one marker characters, so distinct positions yield distinct ids. -/
def genW : Nat → String := fun n => String.mk (List.replicate (n + 1) 'u')

/-- A concrete store for examples: one event with one session, nothing
else. -/
def dbW : DB :=
  { users := [], events := [{ id := 1, name := "Expo" }],
    sessions := [{ id := 10, event_id := 1, name := "Morning" }],
    registrations := [], check_ins := [], devices := [] }

/-- A concrete NewRegistration for examples. -/
def regW : NewRegistration :=
  { local_id := "A", name := "X", phone := some "+254700000001",
    event_id := some 1 }

/-- A concrete CheckInRecord for examples, referencing the registration
above through its batch-local id. -/
def checkinW : CheckInRecord :=
  { local_id := "B", user_ref := .localRef "A", session_id := 10,
    event_id := 1, client_timestamp := 5 }

/-- A concrete sync payload for examples. -/
def payloadW : SyncPayload :=
  { device_id := some "dev-1", new_registrations := [regW],
    check_ins := [checkinW] }

/-- A notification world whose external send operations always raise, for
exercising the exception-swallowing paths. -/
def worldFail : NotificationWorld :=
  { sms_available := true, resend_api_key := some "rk",
    admin_email := some "admin-addr", from_email := "noreply-addr",
    smsSend := fun _ _ => .error (.runtimeError "boom"),
    emailSend := fun _ _ _ _ => .error (.runtimeError "bang") }

/-- A concrete user row for examples. -/
def userW : UserRow :=
  { id := 7, name := "Ada", phone := some "+1", email := some "ada-addr",
    fallback_id := "fb-7" }

/-- A concrete session row for examples. -/
def sessW : SessionRow := { id := 10, event_id := 1, name := "Morning" }

/-- A concrete store for examples holding one user besides the event and
session of dbW. -/
def dbW2 : DB :=
  { dbW with
      users := [{ id := 1, name := "X", phone := some "+254700000001",
                  fallback_id := "u" }],
      next_user_id := 2, uuid_counter := 1 }

/-- A concrete CheckInRecord for examples, referencing the user of dbW2 by
server id. -/
def checkinW2 : CheckInRecord :=
  { local_id := "B", user_ref := .serverRef 1, session_id := 10,
    event_id := 1, client_timestamp := 5 }

/-- A payload whose second check-in references a session that does not
exist, exercising the per-record rejection path. -/
def payloadBad : SyncPayload :=
  { device_id := some "dev-1", new_registrations := [regW],
    check_ins := [checkinW,
      { local_id := "C", user_ref := .localRef "A", session_id := 99,
        event_id := 1, client_timestamp := 6 }] }

/-- The SyncResult of reconciling payloadW against dbW. -/
def resW : SyncResult :=
  { registration_results := [("A", .created 1 (some "u"))],
    check_in_results := [("B", .created 1 none)],
    last_sync_time := 5 }

/-- The store produced by reconciling payloadW against dbW. -/
def dbWafter : DB :=
  { users := [{ id := 1, name := "X", phone := some "+254700000001",
                fallback_id := "u" }],
    events := [{ id := 1, name := "Expo" }],
    sessions := [{ id := 10, event_id := 1, name := "Morning" }],
    registrations := [{ id := 1, user_id := 1, event_id := 1 }],
    check_ins := [{ id := 1, user_id := 1, session_id := 10, event_id := 1,
                    check_in_time := 5, device_id := some "dev-1",
                    is_synced := true, created_at_local := some 5 }],
    devices := [{ id := 1, device_uuid := "dev-1", last_sync_time := some 5 }],
    next_user_id := 2, next_registration_id := 2, next_check_in_id := 2,
    next_device_id := 2, uuid_counter := 1 }

/-- A Fernet token is never the empty string, because it is longer than
its plaintext. -/
theorem Fernet.enc_ne_empty (c : Fernet) (s : String) : c.enc s ≠ "" := by
  intro h
  have hlen := c.enc_longer s
  rw [h] at hlen
  have h0 : ("" : String).length = 0 := rfl
  rw [h0] at hlen
  exact Nat.not_lt_zero _ hlen

/-- A Fernet token differs from its plaintext, because it is longer. -/
theorem Fernet.enc_ne_self (c : Fernet) (s : String) : c.enc s ≠ s := by
  intro h
  have hlen := c.enc_longer s
  rw [h] at hlen
  exact Nat.lt_irrefl _ hlen

/-- Claim C9: the fingerprint-matching operation is a stub — for every
pair of templates and every threshold, match_templates raises
NotImplementedError, and being a pure constant it performs no other
effect. -/
theorem match_templates_raises (fs : FingerprintService) (t1 t2 : String)
    (th : Nat) :
    fs.match_templates t1 t2 th =
      Except.error (PyError.notImplementedError
        "Fingerprint matching must be implemented with a specific SDK.") := rfl

/-- Claim C3: for every non-empty plaintext template, when the Fernet
cipher is initialized, the value stored for either fingerprint-template
field after assignment is never the plaintext input. -/
theorem template_confidentiality (env : CryptoEnv) (c : Fernet) (p : String)
    (hc : env.cipher = some c) (hp : p ≠ "") :
    (fingerprint_template_1_set env (some p)).stored ≠ some p ∧
    (fingerprint_template_2_set env (some p)).stored ≠ some p := by
  have h1 : (fingerprint_template_1_set env (some p)).stored = some (c.enc p) := by
    simp [fingerprint_template_1_set, hc, hp]
  have h2 : (fingerprint_template_2_set env (some p)).stored = some (c.enc p) := by
    simp [fingerprint_template_2_set, hc, hp]
  rw [h1, h2]
  have hne := Fernet.enc_ne_self c p
  constructor <;> simp [hne]

/-- Witness for claim C3, at the demo cipher and the template abc. -/
theorem template_confidentiality_witness :
    (fingerprint_template_1_set ⟨some "key", some demoFernet⟩ (some "abc")).stored ≠ some "abc" ∧
    (fingerprint_template_2_set ⟨some "key", some demoFernet⟩ (some "abc")).stored ≠ some "abc" :=
  template_confidentiality ⟨some "key", some demoFernet⟩ demoFernet "abc" rfl (by decide)

/-- Claim C4 counterexample: with ENCRYPTION_KEY absent the config module
initializes no cipher, and a non-empty template is then persisted as
plaintext with no warning logged — the claim that a warning is always
emitted is false on the code. -/
theorem plaintext_warning_counterexample :
    (fingerprint_template_1_set
        ⟨none, initFernetCipher none (fun _ => some demoFernet)⟩ (some "t")).stored = some "t" ∧
    (fingerprint_template_1_set
        ⟨none, initFernetCipher none (fun _ => some demoFernet)⟩ (some "t")).warned = false := by
  constructor <;> rfl

/-- Claim C4 amended: when the cipher is unavailable a non-empty template
is stored as plaintext, and the warning is emitted exactly when
ENCRYPTION_KEY is set (the unparsable-key case); with the key absent the
plaintext is stored silently. -/
theorem plaintext_warning_iff_key_set (env : CryptoEnv) (p : String)
    (hc : env.cipher = none) (hp : p ≠ "") :
    (fingerprint_template_1_set env (some p)).stored = some p ∧
    (fingerprint_template_1_set env (some p)).warned = env.encryption_key.isSome ∧
    (fingerprint_template_2_set env (some p)).stored = some p ∧
    (fingerprint_template_2_set env (some p)).warned = env.encryption_key.isSome := by
  simp [fingerprint_template_1_set, fingerprint_template_2_set, hc, hp]

/-- Witness for the amended claim C4, at a set but invalid key. -/
theorem plaintext_warning_iff_key_set_witness :
    (fingerprint_template_1_set ⟨some "badkey", none⟩ (some "t")).stored = some "t" ∧
    (fingerprint_template_1_set ⟨some "badkey", none⟩ (some "t")).warned =
      (some "badkey" : Option String).isSome ∧
    (fingerprint_template_2_set ⟨some "badkey", none⟩ (some "t")).stored = some "t" ∧
    (fingerprint_template_2_set ⟨some "badkey", none⟩ (some "t")).warned =
      (some "badkey" : Option String).isSome :=
  plaintext_warning_iff_key_set ⟨some "badkey", none⟩ "t" rfl (by decide)

/-- Claim C10: with an initialized cipher, decrypt_template inverts
encrypt_template on every string, and reading a fingerprint-template
property back after assigning a non-empty plaintext yields that
plaintext. -/
theorem encryption_round_trip (fs : FingerprintService) (env : CryptoEnv)
    (c : Fernet) (hfs : fs.cipher = some c) (henv : env.cipher = some c)
    (s p : String) (hp : p ≠ "") :
    fs.decrypt_template (fs.encrypt_template s) = some s ∧
    fingerprint_template_1_get env
      (fingerprint_template_1_set env (some p)).stored = some p := by
  constructor
  · simp [FingerprintService.encrypt_template, FingerprintService.decrypt_template,
      hfs, Fernet.enc_ne_empty c s]
    exact c.dec_enc s
  · have h1 : (fingerprint_template_1_set env (some p)).stored = some (c.enc p) := by
      simp [fingerprint_template_1_set, henv, hp]
    rw [h1]
    simp [fingerprint_template_1_get, henv, Fernet.enc_ne_empty c p]
    exact c.dec_enc p

/-- Witness for claim C10, at the demo cipher. -/
theorem encryption_round_trip_witness :
    (FingerprintService.mk (some demoFernet)).decrypt_template
        ((FingerprintService.mk (some demoFernet)).encrypt_template "xy") = some "xy" ∧
    fingerprint_template_1_get ⟨some "key", some demoFernet⟩
      (fingerprint_template_1_set ⟨some "key", some demoFernet⟩ (some "ab")).stored = some "ab" :=
  encryption_round_trip ⟨some demoFernet⟩ ⟨some "key", some demoFernet⟩
    demoFernet rfl rfl "xy" "ab" (by decide)

/-- No exception escapes send_checkin_sms: every branch, the caught-send
branch included, yields an ok outcome. -/
theorem send_checkin_sms_no_raise (w : NotificationWorld) (db : DB)
    (u : UserRow) (s : SessionRow) :
    ∃ v, (send_checkin_sms w db u s).1 = Except.ok v := by
  unfold send_checkin_sms
  split
  · exact ⟨none, rfl⟩
  · split
    · exact ⟨none, rfl⟩
    · split
      · exact ⟨_, rfl⟩
      · exact ⟨none, rfl⟩

/-- No exception escapes send_checkin_email. -/
theorem send_checkin_email_no_raise (w : NotificationWorld) (db : DB)
    (u : UserRow) (s : SessionRow) :
    ∃ v, (send_checkin_email w db u s).1 = Except.ok v := by
  unfold send_checkin_email
  split
  · exact ⟨none, rfl⟩
  · split
    · exact ⟨none, rfl⟩
    · split
      · exact ⟨_, rfl⟩
      · exact ⟨none, rfl⟩

/-- No exception escapes send_vip_alerts. -/
theorem send_vip_alerts_no_raise (w : NotificationWorld) (db : DB)
    (u : UserRow) (s : SessionRow) :
    ∃ v, (send_vip_alerts w db u s).1 = Except.ok v := by
  unfold send_vip_alerts
  split
  · exact ⟨none, rfl⟩
  · split
    · exact ⟨none, rfl⟩
    · split
      · exact ⟨_, rfl⟩
      · exact ⟨none, rfl⟩

/-- Claim C5: the check-in notification operations are best-effort — each
sender swallows any error of its external send and returns None, the
combined notification call always returns ok to the sync caller, and a
failing send leaves an error line in the log.  The senders take the store
read-only and return no store, so no notification failure can roll back
sync writes. -/
theorem notifications_best_effort (w : NotificationWorld) (db : DB)
    (u : UserRow) (s : SessionRow) :
    (∃ v, (send_checkin_sms w db u s).1 = Except.ok v) ∧
    (∃ v, (send_checkin_email w db u s).1 = Except.ok v) ∧
    (∃ v, (send_vip_alerts w db u s).1 = Except.ok v) ∧
    (send_checkin_notifications w db u s).1 = Except.ok () ∧
    (∀ e : PyError, w.sms_available = true → u.phone.getD "" ≠ "" →
      w.smsSend (checkinSmsMessage db u s) (u.phone.getD "") = Except.error e →
      (send_checkin_sms w db u s).1 = Except.ok none ∧
      ("ERROR: SMS sending failed: " ++ e.message) ∈ (send_checkin_sms w db u s).2) ∧
    (∀ e : PyError, w.resend_api_key.isSome → u.email.getD "" ≠ "" →
      w.emailSend w.from_email [u.email.getD ""]
          ("Your Check-in Confirmation for " ++ sessionEventName db s)
          (checkinEmailHtml db u s) = Except.error e →
      (send_checkin_email w db u s).1 = Except.ok none ∧
      ("ERROR: Email sending failed: " ++ e.message) ∈ (send_checkin_email w db u s).2) := by
  refine ⟨send_checkin_sms_no_raise w db u s, send_checkin_email_no_raise w db u s,
    send_vip_alerts_no_raise w db u s, ?_, ?_, ?_⟩
  · obtain ⟨v1, h1⟩ := send_checkin_sms_no_raise w db u s
    obtain ⟨v2, h2⟩ := send_checkin_email_no_raise w db u s
    unfold send_checkin_notifications
    rcases hp1 : send_checkin_sms w db u s with ⟨r1, l1⟩
    rcases hp2 : send_checkin_email w db u s with ⟨r2, l2⟩
    rw [hp1] at h1
    rw [hp2] at h2
    simp only at h1 h2
    subst h1
    subst h2
    simp
  · intro e hav hph hsend
    have hav2 : (!w.sms_available) = false := by rw [hav]; rfl
    unfold send_checkin_sms
    rw [hav2]
    simp only [Bool.false_eq_true, if_false, if_neg hph, hsend]
    exact ⟨by simp, by simp⟩
  · intro e hkey hem hsend
    have hk2 : w.resend_api_key.isNone = false := by
      rcases h : w.resend_api_key with _ | k
      · rw [h] at hkey; simp at hkey
      · rfl
    unfold send_checkin_email
    rw [hk2]
    simp only [Bool.false_eq_true, if_false, if_neg hem, hsend]
    exact ⟨by simp, by simp⟩

/-- Witness for claim C5, at a world whose sends always raise. -/
theorem notifications_best_effort_witness :
    (send_checkin_notifications worldFail dbW userW sessW).1 = Except.ok () ∧
    (send_checkin_sms worldFail dbW userW sessW).1 = Except.ok none ∧
    ("ERROR: SMS sending failed: " ++ (PyError.runtimeError "boom").message) ∈
      (send_checkin_sms worldFail dbW userW sessW).2 ∧
    (send_checkin_email worldFail dbW userW sessW).1 = Except.ok none ∧
    ("ERROR: Email sending failed: " ++ (PyError.runtimeError "bang").message) ∈
      (send_checkin_email worldFail dbW userW sessW).2 := by
  have h := notifications_best_effort worldFail dbW userW sessW
  have hs := h.2.2.2.2.1 (.runtimeError "boom") rfl (by decide) rfl
  have he := h.2.2.2.2.2 (.runtimeError "bang") rfl (by decide) rfl
  exact ⟨h.2.2.2.1, hs.1, hs.2, he.1, he.2⟩

/-- Claim C6 counterexample: the schema also declares a unique constraint
on User.firebase_uid, which the claimed list of exactly five keys does not
contain. -/
theorem unique_keys_counterexample :
    UniqueKey.user_firebase_uid ∈ schemaUniqueKeys ∧
    UniqueKey.user_firebase_uid ∉ claimedUniqueKeys := by
  constructor
  · simp [schemaUniqueKeys]
  · simp [claimedUniqueKeys]

/-- SchemaOK unfolded into its six constraints. -/
theorem schemaOK_iff (db : DB) :
    SchemaOK db ↔
      (keyHolds db .user_firebase_uid ∧ keyHolds db .user_email ∧
       keyHolds db .user_fallback_id ∧ keyHolds db .user_phone ∧
       keyHolds db .device_uuid ∧ keyHolds db .registration_user_event) := by
  constructor
  · intro h
    exact ⟨h _ (by simp [schemaUniqueKeys]), h _ (by simp [schemaUniqueKeys]),
      h _ (by simp [schemaUniqueKeys]), h _ (by simp [schemaUniqueKeys]),
      h _ (by simp [schemaUniqueKeys]), h _ (by simp [schemaUniqueKeys])⟩
  · rintro ⟨h1, h2, h3, h4, h5, h6⟩ k hk
    fin_cases hk <;> assumption

/-- The example uuid4 supply is collision-free. -/
theorem genW_inj : GenInj genW := by
  intro i j h
  unfold genW at h
  have hd : List.replicate (i + 1) 'u' = List.replicate (j + 1) 'u' := by
    injection h
  have hl := congrArg List.length hd
  simp at hl
  exact hl

/-- ensureDevice touches only the devices table and its id counter. -/
theorem ensureDevice_frame (now : Nat) (db : DB) (uuid : String) :
    (ensureDevice now db uuid).users = db.users ∧
    (ensureDevice now db uuid).events = db.events ∧
    (ensureDevice now db uuid).sessions = db.sessions ∧
    (ensureDevice now db uuid).registrations = db.registrations ∧
    (ensureDevice now db uuid).check_ins = db.check_ins ∧
    (ensureDevice now db uuid).uuid_counter = db.uuid_counter ∧
    (ensureDevice now db uuid).next_user_id = db.next_user_id ∧
    (ensureDevice now db uuid).next_registration_id = db.next_registration_id ∧
    (ensureDevice now db uuid).next_check_in_id = db.next_check_in_id := by
  unfold ensureDevice
  split <;> simp

/-- ensureDevice preserves every declared unique constraint: a known
device only has its sync time refreshed, an unknown one is appended with
a uuid no existing row carries. -/
theorem ensureDevice_schema (now : Nat) (db : DB) (uuid : String)
    (hok : SchemaOK db) : SchemaOK (ensureDevice now db uuid) := by
  rw [schemaOK_iff] at hok ⊢
  obtain ⟨h1, h2, h3, h4, h5, h6⟩ := hok
  unfold ensureDevice
  split
  · refine ⟨h1, h2, h3, h4, ?_, h6⟩
    simp only [keyHolds]
    have hf : ∀ d : OfflineDeviceRow,
        ((if d.device_uuid = uuid then { d with last_sync_time := some now }
          else d) : OfflineDeviceRow).device_uuid = d.device_uuid := by
      intro d; split <;> rfl
    refine List.Pairwise.map _ (fun a b hab => ?_) h5
    rw [hf a, hf b]
    exact hab
  · next hany =>
    refine ⟨h1, h2, h3, h4, ?_, h6⟩
    simp only [keyHolds]
    rw [List.pairwise_append]
    refine ⟨h5, by simp, ?_⟩
    intro a ha b hb
    simp at hb
    rw [hb]
    simp only []
    rw [Bool.not_eq_true] at hany
    rw [List.any_eq_false] at hany
    have := hany a ha
    simpa using this

/-- Resolving one NewRegistration either leaves the store untouched (the
record re-resolved to an existing user) or appends exactly one new user
carrying the freshly generated fallback id, advancing the uuid supply,
leaving every other table unchanged except for at most one new
registration row guarded by the at-most-one check. -/
theorem processRegistration_shape (gen : Nat → String) (db : DB)
    (m : List (String × Nat × String)) (r : NewRegistration) :
    (processRegistration gen db m r).1 = db ∨
    (findUserForRegistration db r = none ∧ conflictingUser db r = none ∧
     ∃ u : UserRow,
       u = { id := db.next_user_id, firebase_uid := none, name := r.name,
             phone := r.phone, email := r.email,
             fallback_id := gen db.uuid_counter } ∧
       (processRegistration gen db m r).1.users = db.users ++ [u] ∧
       (processRegistration gen db m r).1.uuid_counter = db.uuid_counter + 1 ∧
       (processRegistration gen db m r).1.events = db.events ∧
       (processRegistration gen db m r).1.sessions = db.sessions ∧
       (processRegistration gen db m r).1.check_ins = db.check_ins ∧
       (processRegistration gen db m r).1.devices = db.devices ∧
       ((processRegistration gen db m r).1.registrations = db.registrations ∨
        ∃ ev, r.event_id = some ev ∧
          (db.registrations.any fun g =>
            decide (g.user_id = u.id ∧ g.event_id = ev)) = false ∧
          (processRegistration gen db m r).1.registrations =
            db.registrations ++
              [{ id := db.next_registration_id, user_id := u.id,
                 event_id := ev }])) := by
  unfold processRegistration
  cases hf : findUserForRegistration db r with
  | some u => left; rfl
  | none =>
      cases hc : conflictingUser db r with
      | some u => left; rfl
      | none =>
          right
          refine ⟨rfl, rfl, _, rfl, ?_⟩
          cases hev : r.event_id with
          | none => simp
          | some ev =>
              simp only [hev]
              split
              · simp
              · next hany =>
                  simp
                  intro x hx h1 h2
                  rw [Bool.not_eq_true, List.any_eq_false] at hany
                  have hx2 : ¬(x.user_id = db.next_user_id ∧ x.event_id = ev) := by
                    simpa using hany x hx
                  exact hx2 ⟨h1, h2⟩

/-- Resolving one NewRegistration preserves every declared unique
constraint and the freshness of the uuid supply, and only ever appends
users whose fallback id the supply stamped at creation. -/
theorem processRegistration_step (gen : Nat → String) (db : DB)
    (m : List (String × Nat × String)) (r : NewRegistration)
    (hinj : GenInj gen) (hfresh : UsersFresh gen db) (hok : SchemaOK db) :
    SchemaOK (processRegistration gen db m r).1 ∧
    UsersFresh gen (processRegistration gen db m r).1 ∧
    db.uuid_counter ≤ (processRegistration gen db m r).1.uuid_counter ∧
    ∃ new, (processRegistration gen db m r).1.users = db.users ++ new ∧
      ∀ u ∈ new, ∃ k, db.uuid_counter ≤ k ∧ u.fallback_id = gen k := by
  rcases processRegistration_shape gen db m r with hsame |
    ⟨hf, hc, u, hu, husers, hcnt, hev, hsess, hchk, hdev, hregs⟩
  · rw [hsame]
    exact ⟨hok, hfresh, le_refl _, [], by simp, by simp⟩
  · have hcnone : ∀ v ∈ db.users,
        ¬((r.phone.isSome ∧ v.phone = r.phone) ∨
          (r.email.isSome ∧ v.email = r.email) ∨
          (r.fallback_id.isSome ∧ some v.fallback_id = r.fallback_id)) := by
      rw [conflictingUser, List.find?_eq_none] at hc
      intro v hv
      simpa using hc v hv
    have hue : u.email = r.email := by rw [hu]
    have hup : u.phone = r.phone := by rw [hu]
    have hufb : u.fallback_id = gen db.uuid_counter := by rw [hu]
    have hufire : u.firebase_uid = none := by rw [hu]
    refine ⟨?_, ?_, ?_, ?_⟩
    · rw [schemaOK_iff] at hok ⊢
      obtain ⟨h1, h2, h3, h4, h5, h6⟩ := hok
      refine ⟨?_, ?_, ?_, ?_, ?_, ?_⟩
      · simp only [keyHolds]
        rw [husers, List.pairwise_append]
        refine ⟨h1, by simp, ?_⟩
        intro a ha b hb
        simp at hb
        subst hb
        rcases haf : a.firebase_uid with _ | x
        · exact Or.inl rfl
        · refine Or.inr ?_
          rw [hufire]
          simp
      · simp only [keyHolds]
        rw [husers, List.pairwise_append]
        refine ⟨h2, by simp, ?_⟩
        intro a ha b hb
        simp at hb
        subst hb
        rcases hae : a.email with _ | x
        · exact Or.inl rfl
        · refine Or.inr ?_
          rw [hue]
          intro heq
          refine hcnone a ha (Or.inr (Or.inl ⟨?_, hae.trans heq⟩))
          rw [← heq]
          rfl
      · simp only [keyHolds]
        rw [husers, List.pairwise_append]
        refine ⟨h3, by simp, ?_⟩
        intro a ha b hb
        simp at hb
        subst hb
        rw [hufb]
        exact hfresh a ha db.uuid_counter (le_refl _)
      · simp only [keyHolds]
        rw [husers, List.pairwise_append]
        refine ⟨h4, by simp, ?_⟩
        intro a ha b hb
        simp at hb
        subst hb
        rcases hap : a.phone with _ | x
        · exact Or.inl rfl
        · refine Or.inr ?_
          rw [hup]
          intro heq
          refine hcnone a ha (Or.inl ⟨?_, hap.trans heq⟩)
          rw [← heq]
          rfl
      · simp only [keyHolds]
        rw [hdev]
        exact h5
      · simp only [keyHolds]
        rcases hregs with hsame2 | ⟨ev, hev2, hany, happ⟩
        · rw [hsame2]
          exact h6
        · rw [happ, List.pairwise_append]
          refine ⟨h6, by simp, ?_⟩
          intro a ha b hb
          simp at hb
          subst hb
          have h2 : ¬(a.user_id = u.id ∧ a.event_id = ev) := by
            rw [List.any_eq_false] at hany
            simpa using hany a ha
          by_cases h : a.user_id = u.id
          · exact Or.inr fun he => h2 ⟨h, he⟩
          · exact Or.inl h
    · intro v hv k hk
      rw [husers] at hv
      rw [hcnt] at hk
      simp at hv
      rcases hv with hv | hv
      · exact hfresh v hv k (Nat.le_of_succ_le hk)
      · subst hv
        rw [hufb]
        intro hgen
        have := hinj _ _ hgen
        omega
    · rw [hcnt]
      exact Nat.le_succ _
    · refine ⟨[u], husers, ?_⟩
      intro w hw
      simp at hw
      subst hw
      exact ⟨db.uuid_counter, le_refl _, hufb⟩

/-- Resolving a batch of NewRegistration records preserves the unique
constraints and the supply freshness, advances the supply, and only
appends users stamped with freshly generated fallback ids. -/
theorem processRegistrations_chain (gen : Nat → String) (hinj : GenInj gen) :
    ∀ (rs : List NewRegistration) (db : DB) (m : List (String × Nat × String)),
    UsersFresh gen db → SchemaOK db →
    SchemaOK (processRegistrations gen db m rs).1 ∧
    UsersFresh gen (processRegistrations gen db m rs).1 ∧
    db.uuid_counter ≤ (processRegistrations gen db m rs).1.uuid_counter ∧
    ∃ new, (processRegistrations gen db m rs).1.users = db.users ++ new ∧
      ∀ u ∈ new, ∃ k, db.uuid_counter ≤ k ∧ u.fallback_id = gen k := by
  intro rs
  induction rs with
  | nil =>
      intro db m hfresh hok
      exact ⟨hok, hfresh, le_refl _, [], by simp [processRegistrations], by simp⟩
  | cons r rest ih =>
      intro db m hfresh hok
      have hstep := processRegistration_step gen db m r hinj hfresh hok
      rcases hp : processRegistration gen db m r with ⟨db1, m1, st⟩
      rw [hp] at hstep
      obtain ⟨hok1, hfresh1, hcnt1, new1, hu1, hg1⟩ := hstep
      have hrest := ih db1 m1 hfresh1 hok1
      rcases hq : processRegistrations gen db1 m1 rest with ⟨db2, m2, sts⟩
      rw [hq] at hrest
      obtain ⟨hok2, hfresh2, hcnt2, new2, hu2, hg2⟩ := hrest
      have hred : processRegistrations gen db m (r :: rest) =
          (db2, m2, (r.local_id, st) :: sts) := by
        simp only [processRegistrations, hp, hq]
      rw [hred]
      refine ⟨hok2, hfresh2, le_trans hcnt1 hcnt2, new1 ++ new2, ?_, ?_⟩
      · have : db2.users = db1.users ++ new2 := hu2
        rw [this, hu1, List.append_assoc]
      · intro u hu
        rcases List.mem_append.mp hu with h | h
        · exact hg1 u h
        · obtain ⟨k, hk1, hk2⟩ := hg2 u h
          exact ⟨k, le_trans hcnt1 hk1, hk2⟩

/-- The registration results list one status per submitted record, in
batch order, keyed by local id. -/
theorem processRegistrations_results (gen : Nat → String) :
    ∀ (rs : List NewRegistration) (db : DB) (m : List (String × Nat × String)),
    ((processRegistrations gen db m rs).2.2).map Prod.fst =
      rs.map NewRegistration.local_id := by
  intro rs
  induction rs with
  | nil => intro db m; simp [processRegistrations]
  | cons r rest ih =>
      intro db m
      rcases hp : processRegistration gen db m r with ⟨db1, m1, st⟩
      rcases hq : processRegistrations gen db1 m1 rest with ⟨db2, m2, sts⟩
      have hred : processRegistrations gen db m (r :: rest) =
          (db2, m2, (r.local_id, st) :: sts) := by
        simp only [processRegistrations, hp, hq]
      rw [hred]
      have := ih db1 m1
      rw [hq] at this
      simpa using this

/-- Resolving one CheckInRecord touches only the check_ins table and its
id counter. -/
theorem processCheckIn_frame (now : Nat) (d : String) (db : DB)
    (m : List (String × Nat × String)) (c : CheckInRecord) :
    (processCheckIn now d db m c).1.users = db.users ∧
    (processCheckIn now d db m c).1.devices = db.devices ∧
    (processCheckIn now d db m c).1.registrations = db.registrations ∧
    (processCheckIn now d db m c).1.uuid_counter = db.uuid_counter := by
  unfold processCheckIn
  split
  · simp
  · split
    · simp
    · split
      · simp
      · split
        · simp
        · simp

/-- Resolving a batch of CheckInRecord records touches only the
check_ins table and its id counter. -/
theorem processCheckIns_frame (now : Nat) (d : String) :
    ∀ (cs : List CheckInRecord) (db : DB) (m : List (String × Nat × String)),
    (processCheckIns now d db m cs).1.users = db.users ∧
    (processCheckIns now d db m cs).1.devices = db.devices ∧
    (processCheckIns now d db m cs).1.registrations = db.registrations ∧
    (processCheckIns now d db m cs).1.uuid_counter = db.uuid_counter := by
  intro cs
  induction cs with
  | nil => intro db m; simp [processCheckIns]
  | cons c rest ih =>
      intro db m
      have hstep := processCheckIn_frame now d db m c
      rcases hp : processCheckIn now d db m c with ⟨db1, st⟩
      rw [hp] at hstep
      rcases hq : processCheckIns now d db1 m rest with ⟨db2, sts⟩
      have hrest := ih db1 m
      rw [hq] at hrest
      have hred : processCheckIns now d db m (c :: rest) =
          (db2, (c.local_id, st) :: sts) := by
        simp only [processCheckIns, hp, hq]
      rw [hred]
      exact ⟨hrest.1.trans hstep.1, hrest.2.1.trans hstep.2.1,
        hrest.2.2.1.trans hstep.2.2.1, hrest.2.2.2.trans hstep.2.2.2⟩

/-- The check-in results list one status per submitted record, in batch
order, keyed by local id. -/
theorem processCheckIns_results (now : Nat) (d : String) :
    ∀ (cs : List CheckInRecord) (db : DB) (m : List (String × Nat × String)),
    ((processCheckIns now d db m cs).2).map Prod.fst =
      cs.map CheckInRecord.local_id := by
  intro cs
  induction cs with
  | nil => intro db m; simp [processCheckIns]
  | cons c rest ih =>
      intro db m
      rcases hp : processCheckIn now d db m c with ⟨db1, st⟩
      rcases hq : processCheckIns now d db1 m rest with ⟨db2, sts⟩
      have hred : processCheckIns now d db m (c :: rest) =
          (db2, (c.local_id, st) :: sts) := by
        simp only [processCheckIns, hp, hq]
      rw [hred]
      have := ih db1 m
      rw [hq] at this
      simpa using this

/-- The unique constraints only mention the users, devices and
registrations tables, so they transfer along equality of those tables. -/
theorem schemaOK_congr (a b : DB) (hu : b.users = a.users)
    (hd : b.devices = a.devices) (hr : b.registrations = a.registrations)
    (h : SchemaOK a) : SchemaOK b := by
  rw [schemaOK_iff] at h ⊢
  obtain ⟨h1, h2, h3, h4, h5, h6⟩ := h
  refine ⟨?_, ?_, ?_, ?_, ?_, ?_⟩ <;> simp only [keyHolds]
  · rw [hu]; exact h1
  · rw [hu]; exact h2
  · rw [hu]; exact h3
  · rw [hu]; exact h4
  · rw [hd]; exact h5
  · rw [hr]; exact h6

/-- Supply freshness transfers along equality of users and counter. -/
theorem usersFresh_congr (gen : Nat → String) (a b : DB)
    (hu : b.users = a.users) (hc : b.uuid_counter = a.uuid_counter)
    (h : UsersFresh gen a) : UsersFresh gen b := by
  intro u hu2 k hk
  rw [hu] at hu2
  rw [hc] at hk
  exact h u hu2 k hk

/-- With a device id present, reconcile succeeds and its pieces are the
device registration, the registration pass and the check-in pass. -/
theorem reconcile_ok_parts (gen : Nat → String) (now : Nat)
    (payload : SyncPayload) (db : DB) (d : String)
    (hd : payload.device_id = some d) :
    ∃ res db2, reconcile gen now payload db = Except.ok (res, db2) ∧
      res.registration_results =
        (processRegistrations gen (ensureDevice now db d) []
          payload.new_registrations).2.2 ∧
      res.check_in_results =
        (processCheckIns now d
          (processRegistrations gen (ensureDevice now db d) []
            payload.new_registrations).1
          (processRegistrations gen (ensureDevice now db d) []
            payload.new_registrations).2.1
          payload.check_ins).2 ∧
      res.last_sync_time = now ∧
      db2 =
        (processCheckIns now d
          (processRegistrations gen (ensureDevice now db d) []
            payload.new_registrations).1
          (processRegistrations gen (ensureDevice now db d) []
            payload.new_registrations).2.1
          payload.check_ins).1 := by
  rcases hx : processRegistrations gen (ensureDevice now db d) []
      payload.new_registrations with ⟨db1, m1, rres⟩
  rcases hy : processCheckIns now d db1 m1 payload.check_ins with ⟨db2, cres⟩
  refine ⟨{ registration_results := rres, check_in_results := cres,
            last_sync_time := now }, db2, ?_, rfl, rfl, rfl, rfl⟩
  unfold reconcile
  rw [hd]
  simp only [hx, hy]

/-- A successful reconcile preserves the unique constraints and the supply
freshness, and only ever appends users stamped with freshly generated
fallback ids, leaving every pre-existing user row in place unchanged. -/
theorem reconcile_preserves (gen : Nat → String) (now : Nat)
    (payload : SyncPayload) (db : DB) (res : SyncResult) (db2 : DB)
    (h : reconcile gen now payload db = Except.ok (res, db2))
    (hinj : GenInj gen) (hfresh : UsersFresh gen db) (hok : SchemaOK db) :
    SchemaOK db2 ∧ UsersFresh gen db2 ∧
    ∃ new, db2.users = db.users ++ new ∧
      ∀ u ∈ new, ∃ k, db.uuid_counter ≤ k ∧ u.fallback_id = gen k := by
  rcases hd : payload.device_id with _ | d
  · unfold reconcile at h
    rw [hd] at h
    exact absurd h (by simp)
  · obtain ⟨res', db2', heq, hr1, hr2, hr3, hdb⟩ :=
      reconcile_ok_parts gen now payload db d hd
    rw [heq] at h
    have hres : res' = res ∧ db2' = db2 := by
      have := h
      simp at this
      exact ⟨this.1, this.2⟩
    obtain ⟨hres1, hres2⟩ := hres
    have hA := ensureDevice_frame now db d
    have hokA : SchemaOK (ensureDevice now db d) := ensureDevice_schema now db d hok
    have hfreshA : UsersFresh gen (ensureDevice now db d) :=
      usersFresh_congr gen db _ hA.1 hA.2.2.2.2.2.1 hfresh
    have hchain := processRegistrations_chain gen hinj payload.new_registrations
      (ensureDevice now db d) [] hfreshA hokA
    obtain ⟨hokB, hfreshB, hcntB, new, hnew, hstamp⟩ := hchain
    have hC := processCheckIns_frame now d payload.check_ins
      (processRegistrations gen (ensureDevice now db d) []
        payload.new_registrations).1
      (processRegistrations gen (ensureDevice now db d) []
        payload.new_registrations).2.1
    rw [← hdb, hres2] at hC
    refine ⟨?_, ?_, new, ?_, ?_⟩
    · exact schemaOK_congr _ db2 hC.1 hC.2.1 hC.2.2.1 hokB
    · exact usersFresh_congr gen _ db2 hC.1 hC.2.2.2 hfreshB
    · rw [hC.1, hnew, hA.1]
    · intro u hu
      obtain ⟨k, hk1, hk2⟩ := hstamp u hu
      rw [hA.2.2.2.2.2.1] at hk1
      exact ⟨k, hk1, hk2⟩

/-- The empty example store satisfies the supply-freshness invariant. -/
theorem dbW_fresh : UsersFresh genW dbW := by
  intro u hu
  simp [dbW] at hu

/-- The empty example store satisfies all unique constraints. -/
theorem dbW_ok : SchemaOK dbW := by
  rw [schemaOK_iff]
  refine ⟨?_, ?_, ?_, ?_, ?_, ?_⟩ <;> simp [keyHolds, dbW]

/-- Claim C1: reconcile never surfaces a bare failure for a batch — with a
device id present it returns a full per-record result set, one status per
submitted record in order; only a missing device_id fails the whole
call. -/
theorem reconcile_full_result_set (gen : Nat → String) (now : Nat)
    (payload : SyncPayload) (db : DB) :
    (payload.device_id = none →
      reconcile gen now payload db =
        Except.error (SyncError.validationError "device_id is required")) ∧
    (∀ d, payload.device_id = some d →
      ∃ res db2, reconcile gen now payload db = Except.ok (res, db2) ∧
        res.registration_results.map Prod.fst =
          payload.new_registrations.map NewRegistration.local_id ∧
        res.check_in_results.map Prod.fst =
          payload.check_ins.map CheckInRecord.local_id) := by
  constructor
  · intro h
    unfold reconcile
    rw [h]
  · intro d hd
    obtain ⟨res, db2, heq, hr1, hr2, hr3, hdb⟩ :=
      reconcile_ok_parts gen now payload db d hd
    refine ⟨res, db2, heq, ?_, ?_⟩
    · rw [hr1]
      exact processRegistrations_results gen payload.new_registrations _ _
    · rw [hr2]
      exact processCheckIns_results now d payload.check_ins _ _

/-- Witness for claim C1: a malformed payload fails whole, the example
payload gets one result per record. -/
theorem reconcile_full_result_set_witness :
    reconcile genW 5 { payloadBad with device_id := none } dbW =
      Except.error (SyncError.validationError "device_id is required") ∧
    ∃ res db2, reconcile genW 5 payloadBad dbW = Except.ok (res, db2) ∧
      res.registration_results.map Prod.fst =
        payloadBad.new_registrations.map NewRegistration.local_id ∧
      res.check_in_results.map Prod.fst =
        payloadBad.check_ins.map CheckInRecord.local_id :=
  ⟨(reconcile_full_result_set genW 5 { payloadBad with device_id := none } dbW).1 rfl,
   (reconcile_full_result_set genW 5 payloadBad dbW).2 "dev-1" rfl⟩

/-- Claim C2: a successful reconcile leaves every pre-existing user row in
place unchanged — in particular its fallback id — and any user it creates
carries a fallback id stamped fresh from the uuid supply at creation; the
fallback ids remain unique across all users.  Presence is structural:
fallback_id has type String because the column is non-nullable. -/
theorem fallback_id_stable_unique (gen : Nat → String) (now : Nat)
    (payload : SyncPayload) (db : DB) (res : SyncResult) (db2 : DB)
    (h : reconcile gen now payload db = Except.ok (res, db2))
    (hinj : GenInj gen) (hfresh : UsersFresh gen db) (hok : SchemaOK db) :
    (∃ new, db2.users = db.users ++ new ∧
      ∀ u ∈ new, ∃ k, db.uuid_counter ≤ k ∧ u.fallback_id = gen k) ∧
    (∀ u ∈ db.users, u ∈ db2.users) ∧
    keyHolds db2 .user_fallback_id := by
  obtain ⟨hok2, hfresh2, new, hnew, hstamp⟩ :=
    reconcile_preserves gen now payload db res db2 h hinj hfresh hok
  refine ⟨⟨new, hnew, hstamp⟩, ?_, ?_⟩
  · intro u hu
    rw [hnew]
    exact List.mem_append_left _ hu
  · rw [schemaOK_iff] at hok2
    exact hok2.2.2.1

/-- Witness for claim C2 at the example store and payload. -/
theorem fallback_id_stable_unique_witness :
    (∃ new, dbWafter.users = dbW.users ++ new ∧
      ∀ u ∈ new, ∃ k, dbW.uuid_counter ≤ k ∧ u.fallback_id = genW k) ∧
    (∀ u ∈ dbW.users, u ∈ dbWafter.users) ∧
    keyHolds dbWafter .user_fallback_id :=
  fallback_id_stable_unique genW 5 payloadW dbW resW dbWafter (by rfl)
    genW_inj dbW_fresh dbW_ok

/-- Claim C6 amended: the schema enforces uniqueness on exactly the five
claimed keys plus User.firebase_uid, and a successful reconcile keeps all
of them holding row-wise. -/
theorem unique_constraints_amended (gen : Nat → String) (now : Nat)
    (payload : SyncPayload) (db : DB) (res : SyncResult) (db2 : DB)
    (h : reconcile gen now payload db = Except.ok (res, db2))
    (hinj : GenInj gen) (hfresh : UsersFresh gen db) (hok : SchemaOK db) :
    (∀ k, k ∈ schemaUniqueKeys ↔
      (k ∈ claimedUniqueKeys ∨ k = UniqueKey.user_firebase_uid)) ∧
    SchemaOK db2 := by
  refine ⟨?_, (reconcile_preserves gen now payload db res db2 h hinj hfresh hok).1⟩
  intro k
  cases k <;> simp [schemaUniqueKeys, claimedUniqueKeys]

/-- Witness for the amended claim C6 at the example store and payload. -/
theorem unique_constraints_amended_witness :
    (∀ k, k ∈ schemaUniqueKeys ↔
      (k ∈ claimedUniqueKeys ∨ k = UniqueKey.user_firebase_uid)) ∧
    SchemaOK dbWafter :=
  unique_constraints_amended genW 5 payloadW dbW resW dbWafter (by rfl)
    genW_inj dbW_fresh dbW_ok

/-- An empty check-in batch leaves the store unchanged. -/
theorem processCheckIns_nil (now : Nat) (d : String) (db : DB)
    (m : List (String × Nat × String)) :
    processCheckIns now d db m [] = (db, []) := rfl

/-- A one-record registration batch is one registration step. -/
theorem processRegistrations_singleton (gen : Nat → String) (db : DB)
    (m : List (String × Nat × String)) (r : NewRegistration) :
    processRegistrations gen db m [r] =
      ((processRegistration gen db m r).1,
       (processRegistration gen db m r).2.1,
       [(r.local_id, (processRegistration gen db m r).2.2)]) := by
  rcases hp : processRegistration gen db m r with ⟨db1, m1, st⟩
  simp [processRegistrations, hp]

/-- A record whose lookup chain finds a user is an idempotent
re-submission: nothing is written and the status reports the existing
user. -/
theorem processRegistration_finds (gen : Nat → String) (db : DB)
    (m : List (String × Nat × String)) (r : NewRegistration) (u : UserRow)
    (hf : findUserForRegistration db r = some u) :
    processRegistration gen db m r =
      (db, (r.local_id, u.id, u.fallback_id) :: m,
       .already_existed u.id (some u.fallback_id)) := by
  unfold processRegistration
  rw [hf]

/-- A record finding no user and colliding with none creates exactly one
new user and reports it created. -/
theorem processRegistration_creates (gen : Nat → String) (db : DB)
    (m : List (String × Nat × String)) (r : NewRegistration)
    (hf : findUserForRegistration db r = none)
    (hc : conflictingUser db r = none) :
    ∃ u : UserRow,
      u = { id := db.next_user_id, firebase_uid := none, name := r.name,
            phone := r.phone, email := r.email,
            fallback_id := gen db.uuid_counter } ∧
      (processRegistration gen db m r).1.users = db.users ++ [u] ∧
      (processRegistration gen db m r).2.2 =
        .created u.id (some u.fallback_id) := by
  unfold processRegistration
  rw [hf, hc]
  refine ⟨_, rfl, ?_, rfl⟩
  cases hev : r.event_id with
  | none => rfl
  | some ev =>
      simp only [hev]
      split
      · rfl
      · rfl

/-- Claim C7 (spec-modelled): per-check-in resolution — user, Session and
Event must resolve, a pre-existing CheckIn with the same dedupe key
suppresses the insert, and otherwise exactly one new CheckIn row is
inserted, synced, stamped with the device id and the client timestamp. -/
theorem process_synced_checkin_spec (now : Nat) (d : String) (db : DB)
    (m : List (String × Nat × String)) (c : CheckInRecord) :
    (resolveUserRef db m c.user_ref = none →
      processCheckIn now d db m c = (db, .rejected "referenced user not found")) ∧
    (∀ u, resolveUserRef db m c.user_ref = some u →
      (db.sessions.find? (fun s => decide (s.id = c.session_id)) = none →
        processCheckIn now d db m c = (db, .rejected "referenced session not found")) ∧
      (∀ s0, db.sessions.find? (fun s => decide (s.id = c.session_id)) = some s0 →
        (db.events.find? (fun e => decide (e.id = c.event_id)) = none →
          processCheckIn now d db m c = (db, .rejected "referenced event not found")) ∧
        (∀ e0, db.events.find? (fun e => decide (e.id = c.event_id)) = some e0 →
          (∀ k0, db.check_ins.find? (fun k =>
              decide (k.user_id = u.id ∧ k.session_id = c.session_id ∧
                      k.created_at_local = some c.client_timestamp)) = some k0 →
            processCheckIn now d db m c = (db, .already_existed k0.id none)) ∧
          (db.check_ins.find? (fun k =>
              decide (k.user_id = u.id ∧ k.session_id = c.session_id ∧
                      k.created_at_local = some c.client_timestamp)) = none →
            processCheckIn now d db m c =
              ({ db with
                   check_ins := db.check_ins ++
                     [{ id := db.next_check_in_id, user_id := u.id,
                        session_id := c.session_id, event_id := c.event_id,
                        check_in_time := now, device_id := some d,
                        is_synced := true,
                        created_at_local := some c.client_timestamp,
                        method := c.method }],
                   next_check_in_id := db.next_check_in_id + 1 },
               .created db.next_check_in_id none))))) := by
  refine ⟨?_, ?_⟩
  · intro h
    unfold processCheckIn
    rw [h]
  · intro u hu
    refine ⟨?_, ?_⟩
    · intro h
      unfold processCheckIn
      rw [hu, h]
    · intro s0 hs0
      refine ⟨?_, ?_⟩
      · intro h
        unfold processCheckIn
        rw [hu, hs0, h]
      · intro e0 he0
        refine ⟨?_, ?_⟩
        · intro k0 hk0
          unfold processCheckIn
          rw [hu, hs0, he0]
          simp only [hk0]
        · intro h
          unfold processCheckIn
          rw [hu, hs0, he0]
          simp only [h]

/-- Witness for claim C7: a fresh check-in against the example store
inserts exactly one synced row stamped with device and client time. -/
theorem process_synced_checkin_spec_witness :
    processCheckIn 5 "dev-1" dbW2 [] checkinW2 =
      ({ dbW2 with
           check_ins := [{ id := 1, user_id := 1, session_id := 10,
                           event_id := 1, check_in_time := 5,
                           device_id := some "dev-1", is_synced := true,
                           created_at_local := some 5 }],
           next_check_in_id := 2 },
       .created 1 none) := by
  have h := process_synced_checkin_spec 5 "dev-1" dbW2 [] checkinW2
  have h2 := ((h.2 ⟨1, none, "X", some "+254700000001", none, "u"⟩ rfl).2
      ⟨10, 1, "Morning"⟩ rfl).2 ⟨1, "Expo"⟩ rfl
  exact h2.2 rfl

/-- Claim C8 (spec-modelled): registration reconciliation is idempotent —
submitting a NewRegistration with a phone no stored user carries creates
exactly one user; submitting the same record again in a second sync call
finds that user by phone, creates nothing, reports already_existed, and
the store keeps exactly one user with that phone and at most one
Registration row per (user, event) pair. -/
theorem registration_idempotent (gen : Nat → String) (now1 now2 : Nat)
    (d : String) (r : NewRegistration) (db : DB) (p : String)
    (hp : r.phone = some p)
    (hinj : GenInj gen) (hfresh : UsersFresh gen db) (hok : SchemaOK db)
    (hnoc : conflictingUser db r = none) :
    ∃ u res1 db1 res2 db2,
      reconcile gen now1 { device_id := some d, new_registrations := [r] } db =
        Except.ok (res1, db1) ∧
      db1.users = db.users ++ [u] ∧ u.phone = some p ∧
      res1.registration_results =
        [(r.local_id, .created u.id (some u.fallback_id))] ∧
      reconcile gen now2 { device_id := some d, new_registrations := [r] } db1 =
        Except.ok (res2, db2) ∧
      db2.users = db1.users ∧
      db2.registrations = db1.registrations ∧
      res2.registration_results =
        [(r.local_id, .already_existed u.id (some u.fallback_id))] ∧
      db.users.countP (fun v => decide (v.phone = some p)) = 0 ∧
      db2.users.countP (fun v => decide (v.phone = some p)) = 1 ∧
      keyHolds db2 .registration_user_event := by
  have hnophone : ∀ v ∈ db.users, v.phone ≠ some p := by
    intro v hv hvp
    rw [conflictingUser, List.find?_eq_none] at hnoc
    have hmain : ¬((r.phone.isSome ∧ v.phone = r.phone) ∨
        (r.email.isSome ∧ v.email = r.email) ∨
        (r.fallback_id.isSome ∧ some v.fallback_id = r.fallback_id)) := by
      simpa using hnoc v hv
    exact hmain (Or.inl ⟨by rw [hp]; rfl, by rw [hp]; exact hvp⟩)
  obtain ⟨res1, db1, heq1, h1r, h1c, h1t, h1db⟩ :=
    reconcile_ok_parts gen now1 { device_id := some d, new_registrations := [r] } db d rfl
  have hA := ensureDevice_frame now1 db d
  have hfA : findUserForRegistration (ensureDevice now1 db d) r = none := by
    simp only [findUserForRegistration, hp]
    rw [hA.1, List.find?_eq_none]
    intro x hx
    simpa using hnophone x hx
  have hcA : conflictingUser (ensureDevice now1 db d) r = none := by
    unfold conflictingUser
    rw [hA.1]
    exact hnoc
  obtain ⟨u, hu, huusers, hust⟩ :=
    processRegistration_creates gen (ensureDevice now1 db d) [] r hfA hcA
  have hup : u.phone = some p := by
    rw [hu]
    exact hp
  have hnr1 : ({ device_id := some d, new_registrations := [r] } :
      SyncPayload).new_registrations = [r] := rfl
  rw [hnr1, processRegistrations_singleton] at h1r h1db
  have hnc1 : ({ device_id := some d, new_registrations := [r] } :
      SyncPayload).check_ins = [] := rfl
  rw [hnc1] at h1db
  simp only [processCheckIns_nil] at h1db
  -- h1db : db1 = (processRegistration gen (ensureDevice now1 db d) [] r).1
  have hdb1users : db1.users = db.users ++ [u] := by
    rw [h1db, huusers, hA.1]
  have hres1 : res1.registration_results =
      [(r.local_id, .created u.id (some u.fallback_id))] := by
    rw [h1r, hust]
  have hpres1 := reconcile_preserves gen now1
    { device_id := some d, new_registrations := [r] } db res1 db1 heq1 hinj hfresh hok
  obtain ⟨hok1, hfresh1, _⟩ := hpres1
  -- second call
  obtain ⟨res2, db2, heq2, h2r, h2c, h2t, h2db⟩ :=
    reconcile_ok_parts gen now2 { device_id := some d, new_registrations := [r] } db1 d rfl
  have hB := ensureDevice_frame now2 db1 d
  have hfB : findUserForRegistration (ensureDevice now2 db1 d) r = some u := by
    simp only [findUserForRegistration, hp]
    rw [hB.1, hdb1users, List.find?_append]
    have hnone : db.users.find? (fun v => decide (v.phone = some p)) = none := by
      rw [List.find?_eq_none]
      intro x hx
      simpa using hnophone x hx
    rw [hnone]
    simp [List.find?, hup]
  have hfind2 := processRegistration_finds gen (ensureDevice now2 db1 d) [] r u hfB
  rw [hnr1, processRegistrations_singleton] at h2r h2db
  rw [hnc1] at h2db
  simp only [processCheckIns_nil] at h2db
  rw [hfind2] at h2db h2r
  -- h2db : db2 = ensureDevice now2 db1 d
  have hdb2users : db2.users = db1.users := by
    rw [h2db]
    exact hB.1
  have hdb2regs : db2.registrations = db1.registrations := by
    rw [h2db]
    exact hB.2.2.2.1
  have hres2 : res2.registration_results =
      [(r.local_id, .already_existed u.id (some u.fallback_id))] := by
    rw [h2r]
  have hcount0 : db.users.countP (fun v => decide (v.phone = some p)) = 0 := by
    rw [List.countP_eq_zero]
    intro a ha
    simpa using hnophone a ha
  have hcount1 : db2.users.countP (fun v => decide (v.phone = some p)) = 1 := by
    rw [hdb2users, hdb1users, List.countP_append, hcount0]
    simp [List.countP_cons, hup]
  have hpres2 := reconcile_preserves gen now2
    { device_id := some d, new_registrations := [r] } db1 res2 db2 heq2 hinj hfresh1 hok1
  have hreg2 : keyHolds db2 .registration_user_event := by
    have := hpres2.1
    rw [schemaOK_iff] at this
    exact this.2.2.2.2.2
  exact ⟨u, res1, db1, res2, db2, heq1, hdb1users, hup, hres1, heq2,
    hdb2users, hdb2regs, hres2, hcount0, hcount1, hreg2⟩

/-- Witness for claim C8 at the example store and registration. -/
theorem registration_idempotent_witness :
    ∃ u res1 db1 res2 db2,
      reconcile genW 5 { device_id := some "dev-1", new_registrations := [regW] } dbW =
        Except.ok (res1, db1) ∧
      db1.users = dbW.users ++ [u] ∧ u.phone = some "+254700000001" ∧
      res1.registration_results =
        [(regW.local_id, .created u.id (some u.fallback_id))] ∧
      reconcile genW 6 { device_id := some "dev-1", new_registrations := [regW] } db1 =
        Except.ok (res2, db2) ∧
      db2.users = db1.users ∧
      db2.registrations = db1.registrations ∧
      res2.registration_results =
        [(regW.local_id, .already_existed u.id (some u.fallback_id))] ∧
      dbW.users.countP (fun v => decide (v.phone = some "+254700000001")) = 0 ∧
      db2.users.countP (fun v => decide (v.phone = some "+254700000001")) = 1 ∧
      keyHolds db2 .registration_user_event :=
  registration_idempotent genW 5 6 "dev-1" regW dbW "+254700000001" rfl
    genW_inj dbW_fresh dbW_ok (by rfl)

end CheckPointX
